import Mathlib

/-!
# Verification of the FRP rebar durability pipeline (`frp-hyper`)

Shallow embedding of the data-processing core of the repository:

* `preprocessor.py` — missing-value normalization (`change_smd_to_nan`),
  range resolution (`parse_range_to_mean`), the per-record feature
  derivation engine (`create_selected_features` and its `_process_*`
  rules) and the dataset assembler (`create_model_dataset`);
* `predictor.py` — `FRPPredictor.standardize_prediction_features`,
  `FRPPredictor.predict_single`, `FRPPredictor._emergency_prediction_fallback`
  and `FRPPredictionPipeline.predict_from_raw_data`;
* `utils.py` / `model_trainer.py` — the two-stage
  `train_validation_test_split` partitioner.

Modelling conventions:

* A cell of the tabular data is a `Val`: a finite number (Python `int` /
  `float`, modelled as an exact rational), a short string, or the missing
  marker `NaN`.  IEEE infinities and machine rounding are outside the
  model; all float arithmetic is modelled exactly over `ℚ`.
* A record is one row of a pandas `DataFrame`.  Column presence
  (`col in df.columns`) is modelled by `Option`: `none` means the column
  is absent from the frame.  The derivation code is a per-row loop, so a
  single row of a one-row frame is a faithful unit of modelling.
* Python exceptions are modelled with `Except`; a rule that can raise
  returns `Except Record Record`, the error value being the state of the
  row at the moment the exception escapes.
-/

/-- One dynamically typed cell of the tabular data: a finite number
(`int`/`float`, modelled exactly as a rational), a string, or the missing
marker (`np.nan`). -/
inductive Val where
  | num (q : ℚ)
  | str (s : String)
  | nan
deriving DecidableEq, Repr

namespace Val

/-- `isinstance(v, (int, float)) and not pd.isna(v)`: a genuine finite number.
(`np.nan` is a float in Python but fails the `isna` test; strings fail the
`isinstance` test.) -/
def isNum : Val → Bool
  | .num _ => true
  | _ => false

/-- `pd.notna(v)`: everything except the missing marker (strings count). -/
def notna : Val → Bool
  | .nan => false
  | _ => true

/-- `isinstance(v, str)`. -/
def isStr : Val → Bool
  | .str _ => true
  | _ => false

end Val

/-- Python `str(v)` as far as the engine observes it: strings unchanged,
`str(np.nan) = "nan"`, and numbers printed as digit strings.  The engine
only ever searches the result for alphabetic keywords ("concrete", "sea",
"cl", …), and the decimal text of a number contains no letters, so the
exact numeral format is irrelevant; we use the rational's own numeral. -/
def pyStr : Val → String
  | .str s => s
  | .num q => toString q
  | .nan => "nan"

/-! ## Missing-Value Normalizer — `FRPDataPreprocessor.change_smd_to_nan`
(`preprocessor.py` lines 84–107).  Every column of the frame is passed
through `Series.replace` with the exact-match marker dictionary. -/

/-- The per-cell action of `change_smd_to_nan`: the `missing_markers`
dictionary `{'SMD': nan, 'smd': nan, 'Notreported': 'Unknown',
'not reported': 'Unknown', 'Not reported': 'Unknown',
'NOT REPORTED': 'Unknown'}` applied by exact match. -/
def change_smd_cell (v : Val) : Val :=
  match v with
  | .str s =>
      if s = "SMD" then .nan
      else if s = "smd" then .nan
      else if s = "Notreported" then .str "Unknown"
      else if s = "not reported" then .str "Unknown"
      else if s = "Not reported" then .str "Unknown"
      else if s = "NOT REPORTED" then .str "Unknown"
      else .str s
  | v => v

theorem change_smd_cell_idem (v : Val) :
    change_smd_cell (change_smd_cell v) = change_smd_cell v := by
  cases v with
  | str s =>
      simp only [change_smd_cell]
      split_ifs <;> simp_all [change_smd_cell]
  | num q => rfl
  | nan => rfl

/-! ## Character-level text helpers

String scanning is done over `List Char` with structural recursion so that
concrete witnesses evaluate inside the kernel. -/

/-- Substring containment over character lists (`pat in s` for Python). -/
def containsSub (pat : List Char) : List Char → Bool
  | [] => pat.isEmpty
  | c :: t => pat.isPrefixOf (c :: t) || containsSub pat t

/-- Python's `pat in s` membership test on strings. -/
def strContainsSub (s pat : String) : Bool :=
  containsSub pat.toList s.toList

/-- `str.lower()`. -/
def lowerStr (s : String) : String :=
  String.mk (s.toList.map Char.toLower)

/-- Whitespace recognised by Python's `str.strip()` (the forms that occur
in the data: space, tab, newline, carriage return). -/
def isSpaceChar (c : Char) : Bool :=
  c = ' ' || c = '\t' || c = '\n' || c = '\r'

/-- `str.strip()`. -/
def stripChars (cs : List Char) : List Char :=
  ((cs.dropWhile isSpaceChar).reverse.dropWhile isSpaceChar).reverse

/-- Value of a digit run read as a natural number. -/
def digitsToNat (cs : List Char) : ℕ :=
  cs.foldl (fun a c => 10 * a + (c.toNat - 48)) 0

/-- Python's `float(s)` on decimal literals: optional surrounding
whitespace, optional sign, mantissa `d+[.d*]` or `.d+`, optional exponent
`(e|E)[±]d+`.  Textual specials (`inf`, `nan`) are not in the value
domain: `float('nan')` would be filtered out right after by the callers'
`np.isnan` guards, and IEEE infinities are outside the model, so both are
treated as unparseable. -/
def pyFloat (s : String) : Option ℚ :=
  let cs := stripChars s.toList
  let (neg, cs) :=
    match cs with
    | '+' :: t => (false, t)
    | '-' :: t => (true, t)
    | t => (false, t)
  let (ip, cs) := cs.span Char.isDigit
  let (fp, cs) :=
    match cs with
    | '.' :: t => t.span Char.isDigit
    | t => ([], t)
  if ip.isEmpty && fp.isEmpty then none
  else
    let mant : ℚ := (digitsToNat ip : ℚ) + (digitsToNat fp : ℚ) / (10 : ℚ) ^ fp.length
    let signed : ℚ := if neg then -mant else mant
    let withExp : List Char → Option ℚ := fun t =>
      let (eneg, u) :=
        match t with
        | '+' :: u => (false, u)
        | '-' :: u => (true, u)
        | u => (false, u)
      let (ed, rest) := u.span Char.isDigit
      if ed.isEmpty || !rest.isEmpty then none
      else some (signed * (10 : ℚ) ^ (if eneg then -(digitsToNat ed : ℤ) else (digitsToNat ed : ℤ)))
    match cs with
    | [] => some signed
    | 'e' :: t => withExp t
    | 'E' :: t => withExp t
    | _ => none

/-! ## Range Resolver — `FRPDataPreprocessor.parse_range_to_mean`
(`preprocessor.py` lines 109–147).

The source builds its number-extraction pattern as the *raw* string
`r"\\d+\\.?\\d*"`.  In a raw string each `\\` is two characters, so the
regex engine sees `\\d+\\.?\\d*`: a literal backslash, one or more letters
`d`, a literal backslash, an optional arbitrary character (not a
newline), a literal backslash and zero or more letters `d`.  Every match
therefore contains literal backslashes — an ordinary range string such
as `"20,30"` produces no matches at all, and when a match does occur,
`float(match)` raises `ValueError` (the text contains `\` and `d`), which
the `except` clause swallows.  The rule can never rewrite a cell. -/

/-- One-position match attempt for the source's actual pattern
`\\d+\\.?\\d*` (backslash, `d`+, backslash, any-char?, backslash, `d`*),
returning the match length.  `d+` cannot backtrack into a run of `d`s, so
consuming the maximal run is complete; the optional `.` is tried
greedily first, as the regex engine does. -/
def matchEscapedPattern : List Char → Option ℕ
  | '\\' :: cs =>
    let (ds, rest) := cs.span (· = 'd')
    if ds.isEmpty then none
    else
      match rest with
      | '\\' :: r2 =>
        let withOpt : Option ℕ :=
          match r2 with
          | c :: '\\' :: r3 =>
            if c ≠ '\n' then
              let (ds2, _) := r3.span (· = 'd')
              some (ds.length + ds2.length + 4)
            else none
          | _ => none
        (match withOpt with
         | some n => some n
         | none =>
           match r2 with
           | '\\' :: r3 =>
             let (ds2, _) := r3.span (· = 'd')
             some (ds.length + ds2.length + 3)
           | _ => none)
      | _ => none
  | _ => none

/-- `re.findall` scanning loop for a fixed single-match attempt function:
leftmost, non-overlapping.  Fuel-indexed structural recursion (the fuel
is the input length, which bounds the number of scanning steps). -/
def findallGo (m : List Char → Option ℕ) : ℕ → List Char → List String
  | 0, _ => []
  | _, [] => []
  | fuel + 1, c :: rest =>
    match m (c :: rest) with
    | some n =>
        String.mk ((c :: rest).take n) ::
          findallGo m fuel ((c :: rest).drop (max n 1))
    | none => findallGo m fuel rest

/-- `re.findall(pat, s)` for a fixed pattern matcher. -/
def findallWith (m : List Char → Option ℕ) (s : String) : List String :=
  findallGo m s.toList.length s.toList

/-- The per-cell action of `parse_range_to_mean` (`preprocessor.py` lines
131–144): on a string containing a comma and no colon, extract the
matches of the (escaped-backslash) pattern, convert each with `float`,
and replace the cell by their `np.mean` — the conversion failures and
empty extractions fall through to `continue`, leaving the cell as is.
The mean of finitely many finite floats is finite, so the `np.isnan`
guard never blocks an assignment. -/
def parse_range_cell (v : Val) : Val :=
  match v with
  | .str s =>
    if strContainsSub s "," && ! strContainsSub s ":" then
      match (findallWith matchEscapedPattern s).mapM pyFloat with
      | some (q :: qs) => .num ((q :: qs).sum / ((q :: qs).length : ℚ))
      | some [] => v
      | none => v
    else v
  | v => v

/-- Modelled from the spec: the Range Resolver is specified to extract
"all embedded numeric substrings" — the intended pattern `\d+\.?\d*` over
real digits (spec §4.2).  Used only to state what the claims expect of a
range cell; compare `matchEscapedPattern`, which is what the source's
doubled backslashes actually denote. -/
def matchIntendedNumber : List Char → Option ℕ := fun cs =>
  let (ds, rest) := cs.span Char.isDigit
  if ds.isEmpty then none
  else
    match rest with
    | '.' :: r2 =>
        let (ds2, _) := r2.span Char.isDigit
        some (ds.length + 1 + ds2.length)
    | _ => some ds.length

/-- Modelled from the spec: the arithmetic mean the Range Resolver is
supposed to produce for a comma-and-no-colon range string (spec §4.2 and
the source's own docstring "Process range strings like \x2220,30\x22 to mean
value"). -/
def spec_range_mean (s : String) : Option ℚ :=
  if strContainsSub s "," && ! strContainsSub s ":" then
    match (findallWith matchIntendedNumber s).mapM pyFloat with
    | some (q :: qs) => some ((q :: qs).sum / ((q :: qs).length : ℚ))
    | _ => none
  else none

/-- **C1** — the Range Resolver (claim: a comma-and-no-colon string is
replaced by the arithmetic mean of its numeric substrings).  The code is
wrong: its pattern `r"\x22...\x22` with doubled backslashes matches only text
containing literal backslashes, so on the docstring's own example
`"20,30"` (field `temperature`, say) the extraction finds nothing and
the cell is left unchanged, whereas the documented/specified result is
the mean `25`. -/
theorem C1_range_resolver_is_dead_code :
    parse_range_cell (Val.str "20,30") = Val.str "20,30" ∧
    spec_range_mean "20,30" = some 25 :=
  ⟨by decide, by with_unfolding_all rfl⟩

/-! ## Records

One row of the tabular data, projected onto the columns the core ever
reads or writes.  Raw literature columns are `Option Val` (`none` models
`col not in df.columns`).  The four canonical columns that share their
name with a raw column (`concrete`, `diameter`, `surface_treatment`,
`glass_transition_temperature`) are updated in place, as in the source.
The ten canonical-only columns are plain `Val` fields defaulting to
`NaN`, matching the initialisation loop of `create_selected_features`
(`preprocessor.py` lines 170–173); `rawWf` below states that a raw
record has not pre-seeded them.  Columns of the frame that no rule ever
consults (e.g. `cure_ratio`, `RH_1`) are elided: the rules cannot
observe them. -/
@[ext]
structure Record where
  Title : Option Val := none
  Condition_environment : Option Val := none
  crack : Option Val := none
  cover : Option Val := none
  cement : Option Val := none
  pH_of_concrete : Option Val := none
  solution_condition : Option Val := none
  pH_1 : Option Val := none
  pH : Option Val := none
  ph : Option Val := none
  PH : Option Val := none
  pHafter : Option Val := none
  ingredient_1 : Option Val := none
  type_of_load : Option Val := none
  stress_or_strain : Option Val := none
  value_load : Option Val := none
  ultimate_tensile_strength : Option Val := none
  tensile_modulus : Option Val := none
  Fiber_content_weight : Option Val := none
  Fiber_content_volume : Option Val := none
  Fiber_type : Option Val := none
  Matrix_type : Option Val := none
  nominal_area : Option Val := none
  time_field : Option Val := none
  temperature : Option Val := none
  retention1 : Option Val := none
  Target_parameter : Option Val := none
  Value1_1 : Option Val := none
  concrete : Option Val := none
  diameter : Option Val := none
  surface_treatment : Option Val := none
  glass_transition_temperature : Option Val := none
  pH_of_condition_enviroment : Val := .nan
  Chloride_ion : Val := .nan
  load_value : Val := .nan
  fiber_content : Val := .nan
  Glass_or_Basalt : Val := .nan
  Vinyl_ester_or_Epoxy : Val := .nan
  condition_time : Val := .nan
  Temperature : Val := .nan
  Tensile_strength_retention : Val := .nan
  max_strength : Val := .nan

/-- A record as handed to the core by the data loader: the ten
canonical-only feature columns are not present in the raw literature
schema, so their (initialised) value is the missing marker. -/
def rawWf (r : Record) : Prop :=
  r.pH_of_condition_enviroment = .nan ∧ r.Chloride_ion = .nan ∧
  r.load_value = .nan ∧ r.fiber_content = .nan ∧
  r.Glass_or_Basalt = .nan ∧ r.Vinyl_ester_or_Epoxy = .nan ∧
  r.condition_time = .nan ∧ r.Temperature = .nan ∧
  r.Tensile_strength_retention = .nan ∧ r.max_strength = .nan

/-- `change_smd_to_nan` on a record: the marker replacement runs over
every column of the frame.  (Split into small batches of field updates
only to keep elaboration cheap; the composite touches each column
exactly once.) -/
def change_smd_batch_a (r : Record) : Record :=
  { r with
    Title := r.Title.map change_smd_cell
    Condition_environment := r.Condition_environment.map change_smd_cell
    crack := r.crack.map change_smd_cell
    cover := r.cover.map change_smd_cell
    cement := r.cement.map change_smd_cell
    pH_of_concrete := r.pH_of_concrete.map change_smd_cell
    solution_condition := r.solution_condition.map change_smd_cell
    pH_1 := r.pH_1.map change_smd_cell }

def change_smd_batch_b (r : Record) : Record :=
  { r with
    pH := r.pH.map change_smd_cell
    ph := r.ph.map change_smd_cell
    PH := r.PH.map change_smd_cell
    pHafter := r.pHafter.map change_smd_cell
    ingredient_1 := r.ingredient_1.map change_smd_cell
    type_of_load := r.type_of_load.map change_smd_cell
    stress_or_strain := r.stress_or_strain.map change_smd_cell
    value_load := r.value_load.map change_smd_cell }

def change_smd_batch_c (r : Record) : Record :=
  { r with
    ultimate_tensile_strength := r.ultimate_tensile_strength.map change_smd_cell
    tensile_modulus := r.tensile_modulus.map change_smd_cell
    Fiber_content_weight := r.Fiber_content_weight.map change_smd_cell
    Fiber_content_volume := r.Fiber_content_volume.map change_smd_cell
    Fiber_type := r.Fiber_type.map change_smd_cell
    Matrix_type := r.Matrix_type.map change_smd_cell
    nominal_area := r.nominal_area.map change_smd_cell
    time_field := r.time_field.map change_smd_cell }

def change_smd_batch_d (r : Record) : Record :=
  { r with
    temperature := r.temperature.map change_smd_cell
    retention1 := r.retention1.map change_smd_cell
    Target_parameter := r.Target_parameter.map change_smd_cell
    Value1_1 := r.Value1_1.map change_smd_cell
    concrete := r.concrete.map change_smd_cell
    diameter := r.diameter.map change_smd_cell
    surface_treatment := r.surface_treatment.map change_smd_cell
    glass_transition_temperature := r.glass_transition_temperature.map change_smd_cell }

def change_smd_batch_e (r : Record) : Record :=
  { r with
    pH_of_condition_enviroment := change_smd_cell r.pH_of_condition_enviroment
    Chloride_ion := change_smd_cell r.Chloride_ion
    load_value := change_smd_cell r.load_value
    fiber_content := change_smd_cell r.fiber_content
    Glass_or_Basalt := change_smd_cell r.Glass_or_Basalt
    Vinyl_ester_or_Epoxy := change_smd_cell r.Vinyl_ester_or_Epoxy
    condition_time := change_smd_cell r.condition_time
    Temperature := change_smd_cell r.Temperature }

def change_smd_batch_f (r : Record) : Record :=
  { r with
    Tensile_strength_retention := change_smd_cell r.Tensile_strength_retention
    max_strength := change_smd_cell r.max_strength }

def change_smd_to_nan (r : Record) : Record :=
  change_smd_batch_f (change_smd_batch_e (change_smd_batch_d
    (change_smd_batch_c (change_smd_batch_b (change_smd_batch_a r)))))

def parse_range_batch_a (r : Record) : Record :=
  { r with
    glass_transition_temperature := r.glass_transition_temperature.map parse_range_cell
    Fiber_content_weight := r.Fiber_content_weight.map parse_range_cell
    Fiber_content_volume := r.Fiber_content_volume.map parse_range_cell
    diameter := r.diameter.map parse_range_cell
    nominal_area := r.nominal_area.map parse_range_cell
    temperature := r.temperature.map parse_range_cell }

def parse_range_batch_b (r : Record) : Record :=
  { r with
    pH_of_concrete := r.pH_of_concrete.map parse_range_cell
    crack := r.crack.map parse_range_cell
    pH_1 := r.pH_1.map parse_range_cell
    pHafter := r.pHafter.map parse_range_cell
    value_load := r.value_load.map parse_range_cell
    Value1_1 := r.Value1_1.map parse_range_cell }

def parse_range_to_mean (r : Record) : Record :=
  parse_range_batch_b (parse_range_batch_a r)

/-! ## Feature Derivation Engine — `FRPDataPreprocessor.create_selected_features`
(`preprocessor.py` lines 149–208) and its `_process_*` rules.

Each rule is written as the computation of the values it assigns followed
by a single record update; the data flow is exactly that of the source's
imperative `df.loc[idx, col] = …` statements.  The only rule that can
raise inside the per-row `try` is `_process_fiber_content`
(`ZeroDivisionError` when the volume-to-weight denominator is exactly
zero), so it returns `Except Record Record`, the error value being the
row state at the raise (the rule writes nothing before dividing).  Every
other rule guards each arithmetic step by `isinstance`/positivity checks
and cannot raise on `Val`-typed cells. -/

/-- `col in df.columns and` the cell is a string or a non-NaN number —
the presence test used by the concrete-environment scans
(`preprocessor.py` lines 230–235 and 309–314). -/
def cellPresentStrOrNum (o : Option Val) : Bool :=
  match o with
  | some (.str _) => true
  | some (.num _) => true
  | _ => false

/-- First numeric value among a prioritised list of columns
(the `ph_columns` scan, `preprocessor.py` lines 261–268). -/
def firstNumVal : List (Option Val) → Option ℚ
  | [] => none
  | some (.num q) :: _ => some q
  | _ :: t => firstNumVal t

/-- Keywords marking a concrete environment (`preprocessor.py` line 223). -/
def concreteKeywords : List String :=
  ["concrete", "cover", "crack", "cement", "mortar"]

/-- Water-type keywords (`preprocessor.py` lines 279–280). -/
def waterTypes : List String :=
  ["tap water", "sea water", "seawater", "distilled water",
   "deionized water", "di water", "pure water"]

/-- Chloride keywords (`preprocessor.py` line 301). -/
def chlorideKeywords : List String :=
  ["cl", "chloride", "nacl", "cacl2", "mgcl2", "salt"]

/-- Lower-cased text of a cell of an optional column, `""` when the
column is absent. -/
def lowerTextOf (o : Option Val) : String :=
  match o with
  | some v => lowerStr (pyStr v)
  | none => ""

/-- `_process_ph_and_chloride` (`preprocessor.py` lines 210–303). -/
def process_ph_and_chloride (r : Record) : Record :=
  -- step 1: classify the environment (line 218–235)
  let isConcreteEnv : Bool :=
    (match r.Condition_environment with
     | some v => concreteKeywords.any (fun k => strContainsSub (lowerStr (pyStr v)) k)
     | none => false) ||
    [r.concrete, r.crack, r.cover, r.cement].any cellPresentStrOrNum
  -- steps 2/3: base pH (lines 238–287)
  let solutionPh : Option ℚ :=
    match r.solution_condition with
    | some (.num q) => some q
    | _ => firstNumVal [r.pH_1, r.pH, r.ph, r.PH]
  let solutionText : String :=
    let st := lowerTextOf r.solution_condition
    if st = "" then lowerTextOf r.ingredient_1 else st
  let basePh : ℚ :=
    if isConcreteEnv then
      match r.pH_of_concrete with
      | some (.num q) => q
      | _ => 13
    else
      -- a water-type match assigns 7.0, which equals the running default
      match solutionPh with
      | some q => q
      | none => 7
  -- sea water sets the chloride flag (lines 282–287)
  let seaChloride : Bool :=
    !isConcreteEnv && solutionPh.isNone &&
      waterTypes.any (fun w => strContainsSub solutionText w) &&
      strContainsSub solutionText "sea"
  -- step 4: average with pHafter when numeric (lines 289–293)
  let finalPh : ℚ :=
    match r.pHafter with
    | some (.num q) => (basePh + q) / 2
    | _ => basePh
  -- closing chloride keyword scan over ingredient_1 (lines 298–303);
  -- it can set, never unset, the flag initialised to 0 at line 214
  let ingredientChloride : Bool :=
    match r.ingredient_1 with
    | some v => chlorideKeywords.any (fun k => strContainsSub (lowerStr (pyStr v)) k)
    | none => false
  { r with
    pH_of_condition_enviroment := .num finalPh
    Chloride_ion := .num (if seaChloride || ingredientChloride then 1 else 0) }

/-- `_process_concrete_indicator` (`preprocessor.py` lines 305–317). -/
def process_concrete_indicator (r : Record) : Record :=
  { r with
    concrete := some (.num
      (if [r.concrete, r.crack, r.cover].any cellPresentStrOrNum then 1 else 0)) }

/-- `_process_diameter` (`preprocessor.py` lines 319–333).  `np.sqrt` is
irrational on most inputs, so the computed value `2·sqrt(area/π)` is
represented through the uninterpreted parameter `calcDiameterF` (no claim
observes the computed number, only which cell it lands in). -/
def process_diameter (calcDiameterF : ℚ → ℚ) (r : Record) : Record :=
  match r.diameter with
  | some (.num q) => { r with diameter := some (.num q) }
  | _ =>
    match r.nominal_area with
    | some (.num a) =>
        if a > 0 then { r with diameter := some (.num (calcDiameterF a)) } else r
    | _ => r

/-- The non-preloading load fraction of `_process_load`
(`preprocessor.py` lines 337–363): starts at 0 and is overwritten only
when the stress/strain mode, a numeric load value, and the required
positive strength/modulus fields are all present. -/
def load_fraction (r : Record) : ℚ :=
  -- both columns must exist (line 346)
  if r.stress_or_strain.isSome && r.value_load.isSome then
    match r.value_load with
    | some (.num v) =>
      if r.stress_or_strain = some (.str "stress") then
        match r.ultimate_tensile_strength with
        | some (.num u) => if u > 0 then v / u else 0
        | _ => 0
      else if r.stress_or_strain = some (.str "strain") then
        match r.tensile_modulus, r.ultimate_tensile_strength with
        | some (.num m), some (.num u) =>
            if m > 0 && u > 0 then v * (1 / 1000) * m / u else 0
        | _, _ => 0
      else 0
    | _ => 0
  else 0

/-- `_process_load` (`preprocessor.py` lines 335–365): a `preloading`
load type forces the fraction to 0 and returns early. -/
def process_load (r : Record) : Record :=
  if r.type_of_load = some (.str "preloading") then
    { r with load_value := .num 0 }
  else
    { r with load_value := .num (load_fraction r) }

/-- Fibre mass densities (`config.MATERIAL_PROPERTIES['fiber_densities']`,
`config.py` lines 200–204) with the `.get` default 2.0
(`preprocessor.py` line 385); the dictionary key is the raw cell. -/
def fiberDensity (v : Val) : ℚ :=
  if v = .str "Glass" then 51 / 20          -- 2.55
  else if v = .str "Carbon" then 46 / 25    -- 1.84
  else if v = .str "Basalt" then 267 / 100  -- 2.67
  else 2

/-- Matrix mass densities (`config.py` lines 205–209) with the `.get`
default 1.2 (`preprocessor.py` line 388). -/
def matrixDensity (v : Val) : ℚ :=
  if v = .str "Vinyl ester" then 109 / 100  -- 1.09
  else if v = .str "Epoxy" then 11 / 10     -- 1.1
  else if v = .str "Polyester" then 69 / 50 -- 1.38
  else 6 / 5

/-- `_process_fiber_content` (`preprocessor.py` lines 367–394).  The
division at lines 391–393 raises `ZeroDivisionError` when the
denominator is exactly zero (reachable: e.g. volume −150 with the
default densities 2.0 and 1.2 gives `−150·2.0 + 250·1.2 = 0.0` exactly,
in float arithmetic as well); the error value is the untouched row. -/
def process_fiber_content (r : Record) : Except Record Record :=
  match r.Fiber_content_weight with
  | some (.num w) => .ok { r with fiber_content := .num w }
  | _ =>
    match r.Fiber_content_volume with
    | some (.num v) =>
        let fiberType := match r.Fiber_type with
          | some fv => fv
          | none => .str "Unknown"
        let matrixType := match r.Matrix_type with
          | some mv => mv
          | none => .str "Unknown"
        let densityFiber := fiberDensity fiberType
        let densityMatrix := matrixDensity matrixType
        let deno := v * densityFiber + (100 - v) * densityMatrix
        if deno = 0 then .error r
        else .ok { r with fiber_content := .num (100 * v * densityFiber / deno) }
    | _ => .ok r

/-- `_process_material_types` (`preprocessor.py` lines 396–412). -/
def process_material_types (r : Record) : Record :=
  { r with
    Glass_or_Basalt :=
      match r.Fiber_type with
      | some v =>
          if v = .str "Glass" then .num 1
          else if v = .str "Basalt" then .num 0
          else r.Glass_or_Basalt
      | none => r.Glass_or_Basalt
    Vinyl_ester_or_Epoxy :=
      match r.Matrix_type with
      | some v =>
          if v = .str "Vinyl ester" then .num 1
          else if v = .str "Epoxy" then .num 0
          else r.Vinyl_ester_or_Epoxy
      | none => r.Vinyl_ester_or_Epoxy }

/-- `_process_surface_treatment` (`preprocessor.py` lines 414–421). -/
def process_surface_treatment (r : Record) : Record :=
  { r with
    surface_treatment :=
      match r.surface_treatment with
      | some v =>
          if v = .str "sand coated" then some (.num 0)
          else if v = .str "Smooth" then some (.num 1)
          else r.surface_treatment
      | none => r.surface_treatment }

/-- Numeric coercion used by `_process_other_features` for the directly
mapped numeric fields (`preprocessor.py` lines 441–453): keep a numeric
source value; for a non-blank string try `float(...)` and assign on
success (`np.isnan` of a parsed finite literal is false); otherwise leave
the destination at its prior value. -/
def coerceMapped (source : Option Val) (prior : Val) : Val :=
  match source with
  | some (.num q) => .num q
  | some (.str s) =>
      if String.mk (stripChars s.toList) ≠ "" then
        match pyFloat s with
        | some q => .num q
        | none => prior
      else prior
  | _ => prior

/-- `_process_other_features` (`preprocessor.py` lines 423–453): the
direct feature mappings `condition_time ← time_field`,
`Temperature ← temperature`, `Tensile_strength_retention ← retention1`,
`Target_parameter ← Target_parameter` (an unconditional self-copy),
`max_strength ← Value1_1` and the in-place numeric coercion of
`glass_transition_temperature`; each mapping fires only when its source
column exists. -/
def process_other_features (r : Record) : Record :=
  { r with
    condition_time :=
      match r.time_field with
      | some _ => coerceMapped r.time_field r.condition_time
      | none => r.condition_time
    Temperature :=
      match r.temperature with
      | some _ => coerceMapped r.temperature r.Temperature
      | none => r.Temperature
    Tensile_strength_retention :=
      match r.retention1 with
      | some _ => coerceMapped r.retention1 r.Tensile_strength_retention
      | none => r.Tensile_strength_retention
    max_strength :=
      match r.Value1_1 with
      | some _ => coerceMapped r.Value1_1 r.max_strength
      | none => r.max_strength
    glass_transition_temperature :=
      match r.glass_transition_temperature with
      | some v => some (coerceMapped (some v) v)
      | none => r.glass_transition_temperature }

/-- The initialisation loop of `create_selected_features`
(`preprocessor.py` lines 170–173): every canonical feature column that
is not yet in the frame is created filled with `NaN`.  The ten
canonical-only columns are always-present `Val` fields of `Record`, so
only the four shared columns need materialising. -/
def init_feature_columns (r : Record) : Record :=
  { r with
    concrete := some (r.concrete.getD .nan)
    diameter := some (r.diameter.getD .nan)
    surface_treatment := some (r.surface_treatment.getD .nan)
    glass_transition_temperature := some (r.glass_transition_temperature.getD .nan) }

/-- The first four rule invocations of the per-row loop
(`preprocessor.py` lines 181–190); none of them can raise on `Val`
cells. -/
def rules_one_to_four (calcDiameterF : ℚ → ℚ) (r : Record) : Record :=
  process_load (process_diameter calcDiameterF
    (process_concrete_indicator (process_ph_and_chloride (init_feature_columns r))))

/-- The per-row body of `create_selected_features` (`preprocessor.py`
lines 178–205): the eight rules run in sequence inside a single
`try/except` whose handler is `continue` — when a rule raises, the
remaining rules are skipped and the row keeps the state it had at the
exception. -/
def create_selected_features (calcDiameterF : ℚ → ℚ) (r : Record) : Record :=
  match process_fiber_content (rules_one_to_four calcDiameterF r) with
  | .ok r5 => process_other_features (process_surface_treatment (process_material_types r5))
  | .error s => s

/-- The preprocessing chain up to and including feature derivation
(`preprocess_data` steps 1–3, `preprocessor.py` lines 64–71). -/
def derive_features (calcDiameterF : ℚ → ℚ) (r : Record) : Record :=
  create_selected_features calcDiameterF (parse_range_to_mean (change_smd_to_nan r))

/-! ## C7 — idempotence of the Missing-Value Normalizer -/

lemma change_smd_cell_comp :
    change_smd_cell ∘ change_smd_cell = change_smd_cell :=
  funext change_smd_cell_idem

lemma opt_change_smd_idem (o : Option Val) :
    (o.map change_smd_cell).map change_smd_cell = o.map change_smd_cell := by
  cases o <;> simp [change_smd_cell_idem]

/-- **C7** — the Missing-Value Normalizer is idempotent: normalizing an
already-normalized record changes nothing (every marker is rewritten to
`NaN` or `"Unknown"`, and neither is itself a marker). -/
theorem C7_change_smd_idempotent (r : Record) :
    change_smd_to_nan (change_smd_to_nan r) = change_smd_to_nan r := by
  cases r
  simp [change_smd_to_nan, change_smd_batch_a, change_smd_batch_b,
    change_smd_batch_c, change_smd_batch_d, change_smd_batch_e,
    change_smd_batch_f, opt_change_smd_idem, change_smd_cell_idem,
    change_smd_cell_comp]

/-! ## Shape lemmas for the derivation rules

Each rule writes only its own canonical fields; the lemmas below exhibit
the single record update each rule performs, which the claim proofs
combine. -/

lemma process_ph_and_chloride_eq (r : Record) :
    ∃ (ph : ℚ) (ci : Bool), process_ph_and_chloride r =
      { r with pH_of_condition_enviroment := .num ph,
               Chloride_ion := .num (if ci then 1 else 0) } :=
  ⟨_, _, rfl⟩

lemma process_concrete_indicator_eq (r : Record) :
    ∃ cb : Bool, process_concrete_indicator r =
      { r with concrete := some (.num (if cb then 1 else 0)) } :=
  ⟨_, rfl⟩

lemma process_diameter_eq (calcDiameterF : ℚ → ℚ) (r : Record) :
    ∃ d : Option Val, process_diameter calcDiameterF r = { r with diameter := d } := by
  unfold process_diameter
  split
  · exact ⟨_, rfl⟩
  · split
    · split_ifs
      · exact ⟨_, rfl⟩
      · exact ⟨r.diameter, rfl⟩
    · exact ⟨r.diameter, rfl⟩

lemma process_load_eq (r : Record) :
    ∃ lv : ℚ, process_load r = { r with load_value := .num lv } ∧
      (r.type_of_load = some (.str "preloading") → lv = 0) := by
  by_cases h : r.type_of_load = some (.str "preloading")
  · exact ⟨0, by simp [process_load, h], fun _ => rfl⟩
  · exact ⟨load_fraction r, by simp [process_load, h], fun hc => absurd hc h⟩

lemma process_fiber_content_error_eq {r s : Record}
    (h : process_fiber_content r = .error s) : s = r := by
  simp only [process_fiber_content] at h
  split at h
  · cases h
  · split at h
    · split_ifs at h
      · cases h; rfl
    · cases h

lemma process_fiber_content_ok_eq {r t : Record}
    (h : process_fiber_content r = .ok t) :
    ∃ fc : Val, t = { r with fiber_content := fc } ∧
      (fc = r.fiber_content ∨ ∃ q : ℚ, fc = .num q) := by
  simp only [process_fiber_content] at h
  split at h
  · cases h; exact ⟨_, rfl, .inr ⟨_, rfl⟩⟩
  · split at h
    · split_ifs at h
      · cases h; exact ⟨_, rfl, .inr ⟨_, rfl⟩⟩
    · cases h
      exact ⟨r.fiber_content, rfl, .inl rfl⟩

lemma process_material_types_eq (r : Record) :
    ∃ gb ve : Val, process_material_types r =
      { r with Glass_or_Basalt := gb, Vinyl_ester_or_Epoxy := ve } ∧
      (gb = .num 0 ∨ gb = .num 1 ∨ gb = r.Glass_or_Basalt) ∧
      (ve = .num 0 ∨ ve = .num 1 ∨ ve = r.Vinyl_ester_or_Epoxy) := by
  refine ⟨_, _, rfl, ?_, ?_⟩
  · rcases r.Fiber_type with _ | v
    · exact .inr (.inr rfl)
    · simp only
      split_ifs <;> simp
  · rcases r.Matrix_type with _ | v
    · exact .inr (.inr rfl)
    · simp only
      split_ifs <;> simp

lemma process_surface_treatment_eq (r : Record) :
    ∃ st : Option Val, process_surface_treatment r = { r with surface_treatment := st } :=
  ⟨_, rfl⟩

lemma coerceMapped_cases (source : Option Val) (prior : Val) :
    coerceMapped source prior = prior ∨ ∃ q : ℚ, coerceMapped source prior = .num q := by
  unfold coerceMapped
  rcases source with _ | v
  · exact .inl rfl
  · rcases v with q | s | _
    · exact .inr ⟨q, rfl⟩
    · simp only
      split_ifs
      · rcases hp : pyFloat s with _ | q
        · exact .inl rfl
        · exact .inr ⟨q, rfl⟩
      · exact .inl rfl
    · exact .inl rfl

lemma process_other_features_eq (r : Record) :
    ∃ (ct te tr ms : Val) (gt : Option Val), process_other_features r =
      { r with condition_time := ct, Temperature := te,
               Tensile_strength_retention := tr, max_strength := ms,
               glass_transition_temperature := gt } ∧
      (ct = r.condition_time ∨ ∃ q : ℚ, ct = .num q) ∧
      (te = r.Temperature ∨ ∃ q : ℚ, te = .num q) ∧
      (tr = r.Tensile_strength_retention ∨ ∃ q : ℚ, tr = .num q) ∧
      (ms = r.max_strength ∨ ∃ q : ℚ, ms = .num q) := by
  refine ⟨_, _, _, _, _, rfl, ?_, ?_, ?_, ?_⟩
  · rcases r.time_field with _ | v
    · exact .inl rfl
    · exact coerceMapped_cases _ _
  · rcases r.temperature with _ | v
    · exact .inl rfl
    · exact coerceMapped_cases _ _
  · rcases r.retention1 with _ | v
    · exact .inl rfl
    · exact coerceMapped_cases _ _
  · rcases r.Value1_1 with _ | v
    · exact .inl rfl
    · exact coerceMapped_cases _ _

/-- The combined effect of the first four rules: a single record update
writing the concrete flag, the diameter, the two pH-rule outputs, the
load fraction and the initialised shared columns; the load is 0 whenever
the load type is `preloading`. -/
lemma rules_one_to_four_eq (calcDiameterF : ℚ → ℚ) (r : Record) :
    ∃ (ph : ℚ) (ci cb : Bool) (d : Option Val) (lv : ℚ),
      rules_one_to_four calcDiameterF r =
        { r with
          concrete := some (.num (if cb then 1 else 0)),
          diameter := d,
          surface_treatment := some (r.surface_treatment.getD .nan),
          glass_transition_temperature := some (r.glass_transition_temperature.getD .nan),
          pH_of_condition_enviroment := .num ph,
          Chloride_ion := .num (if ci then 1 else 0),
          load_value := .num lv } ∧
      (r.type_of_load = some (.str "preloading") → lv = 0) := by
  unfold rules_one_to_four
  obtain ⟨ph, ci, h1⟩ := process_ph_and_chloride_eq (init_feature_columns r)
  rw [h1]
  obtain ⟨cb, h2⟩ := process_concrete_indicator_eq _
  rw [h2]
  obtain ⟨d, h3⟩ := process_diameter_eq calcDiameterF _
  rw [h3]
  obtain ⟨lv, h4, h5⟩ := process_load_eq _
  rw [h4]
  exact ⟨ph, ci, cb, d, lv, rfl, h5⟩

/-- **C3 (amended)** — when a rule of the per-row derivation loop raises
(the reachable case is the fiber-content division), the remaining rules
for that record are skipped: the loop's single `try/except` returns the
row exactly as it stood after the first four rules, instead of running
each remaining per-field rule independently. -/
theorem C3_failed_rule_skips_remaining_rules (calcDiameterF : ℚ → ℚ) (r : Record)
    (h : ∃ s, process_fiber_content (rules_one_to_four calcDiameterF r) = .error s) :
    create_selected_features calcDiameterF r = rules_one_to_four calcDiameterF r := by
  obtain ⟨s, hs⟩ := h
  have hsr := process_fiber_content_error_eq hs
  unfold create_selected_features
  rw [hs, hsr]

/-- The record of the C3 counterexample: a fibre volume percentage of
−150 with no fibre/matrix type drives the volume-to-weight denominator
`−150·2.0 + 250·1.2` to exactly zero (also in float arithmetic), raising
`ZeroDivisionError`; the surface-treatment cell is `"Smooth"`. -/
def recC3 : Record :=
  { Fiber_content_volume := some (.num (-150)),
    surface_treatment := some (.str "Smooth") }

/-- **C3 (counterexample)** — the claim says every per-field rule still
runs and writes its field when another rule fails.  On `recC3` the
fiber-content rule raises, and the surface-treatment rule is *not*
applied: the derived cell still holds the raw string `"Smooth"`, though
the rule, had it run, would have written the flag 1. -/
theorem C3_counterexample :
    (create_selected_features (fun q => q) recC3).surface_treatment
        = some (.str "Smooth") ∧
    (process_surface_treatment
        (create_selected_features (fun q => q) recC3)).surface_treatment
        = some (.num 1) := by
  constructor
  · with_unfolding_all rfl
  · with_unfolding_all rfl

/-- **C3 (witness)** — the amended theorem applied to `recC3`. -/
theorem C3_failed_rule_witness :
    create_selected_features (fun q => q) recC3
      = rules_one_to_four (fun q => q) recC3 :=
  C3_failed_rule_skips_remaining_rules (fun q => q) recC3
    ⟨rules_one_to_four (fun q => q) recC3, by with_unfolding_all rfl⟩

/-- Rules six to eight each perform a single record update that does not
touch the fields below; the composite preserves them definitionally. -/
lemma rules_six_to_eight_load_value (t : Record) :
    (process_other_features (process_surface_treatment
      (process_material_types t))).load_value = t.load_value := rfl

lemma rules_six_to_eight_ph (t : Record) :
    (process_other_features (process_surface_treatment
      (process_material_types t))).pH_of_condition_enviroment
      = t.pH_of_condition_enviroment := rfl

lemma rules_six_to_eight_chloride (t : Record) :
    (process_other_features (process_surface_treatment
      (process_material_types t))).Chloride_ion = t.Chloride_ion := rfl

lemma rules_six_to_eight_concrete (t : Record) :
    (process_other_features (process_surface_treatment
      (process_material_types t))).concrete = t.concrete := rfl

lemma rules_six_to_eight_fiber_content (t : Record) :
    (process_other_features (process_surface_treatment
      (process_material_types t))).fiber_content = t.fiber_content := rfl

/-- **C8** — a record whose `type_of_load` is `"preloading"` derives a
load fraction of exactly 0, whatever the stress/strain mode, load value,
modulus or ultimate tensile strength hold ("preloading" is not a missing
marker and `type_of_load` is not range-resolved, so the full chain
preserves it up to the load rule). -/
theorem C8_preloading_load_zero (calcDiameterF : ℚ → ℚ) (r : Record)
    (h : r.type_of_load = some (.str "preloading")) :
    (derive_features calcDiameterF r).load_value = .num 0 := by
  have h0 : (parse_range_to_mean (change_smd_to_nan r)).type_of_load
      = some (.str "preloading") := by
    show r.type_of_load.map change_smd_cell = _
    rw [h]
    with_unfolding_all rfl
  unfold derive_features create_selected_features
  obtain ⟨ph, ci, cb, d, lv, h4, hlv⟩ :=
    rules_one_to_four_eq calcDiameterF (parse_range_to_mean (change_smd_to_nan r))
  have hlv0 : lv = 0 := hlv h0
  cases hf : process_fiber_content
      (rules_one_to_four calcDiameterF (parse_range_to_mean (change_smd_to_nan r))) with
  | error s =>
      dsimp only
      rw [process_fiber_content_error_eq hf, h4, hlv0]
  | ok t =>
      dsimp only
      rw [rules_six_to_eight_load_value]
      obtain ⟨fc, ht, _⟩ := process_fiber_content_ok_eq hf
      rw [ht, h4, hlv0]

/-- The record of the C8 witness: preloading together with a stress mode
and a large load value that would otherwise give the fraction 0.5. -/
def recC8 : Record :=
  { type_of_load := some (.str "preloading"),
    stress_or_strain := some (.str "stress"),
    value_load := some (.num 500),
    ultimate_tensile_strength := some (.num 1000) }

/-- **C8 (witness)** — the theorem applied to `recC8`. -/
theorem C8_preloading_witness :
    (derive_features (fun q => q) recC8).load_value = .num 0 :=
  C8_preloading_load_zero (fun q => q) recC8 rfl

/-! ## C9 — boundary cases of the volume-to-weight conversion -/

lemma fiberDensity_pos (v : Val) : 0 < fiberDensity v := by
  unfold fiberDensity
  split_ifs <;> norm_num

lemma matrixDensity_pos (v : Val) : 0 < matrixDensity v := by
  unfold matrixDensity
  split_ifs <;> norm_num

/-- The fiber-content rule at the boundary volumes: for `V = 100` the
denominator is `100·ρ_fiber > 0` and the quotient is exactly 100; for
`V = 0` it is `100·ρ_matrix > 0` and the quotient is exactly 0 — for
every density the lookup tables (or their defaults) can produce. -/
lemma process_fiber_content_boundary (x : Record)
    (hw : ∀ q : ℚ, x.Fiber_content_weight ≠ some (.num q)) :
    (x.Fiber_content_volume = some (.num 100) →
      process_fiber_content x = .ok { x with fiber_content := .num 100 }) ∧
    (x.Fiber_content_volume = some (.num 0) →
      process_fiber_content x = .ok { x with fiber_content := .num 0 }) := by
  have hfd : ∀ f m : Val, (0:ℚ) < 100 * fiberDensity f + (100 - 100) * matrixDensity m := by
    intro f m
    have := fiberDensity_pos f
    linarith
  have hmd : ∀ f m : Val, (0:ℚ) < 0 * fiberDensity f + (100 - 0) * matrixDensity m := by
    intro f m
    have := matrixDensity_pos m
    linarith
  rcases hFW : x.Fiber_content_weight with _ | v
  · constructor
    · intro hv
      simp only [process_fiber_content, hFW, hv]
      rw [if_neg (ne_of_gt (hfd _ _))]
      congr 1
      ext : 1 <;> first
        | rfl
        | · show Val.num _ = Val.num 100
            congr 1
            have := fiberDensity_pos (match x.Fiber_type with
              | some fv => fv
              | none => .str "Unknown")
            field_simp
            ring
    · intro hv
      simp only [process_fiber_content, hFW, hv]
      rw [if_neg (ne_of_gt (hmd _ _))]
      congr 1
      ext : 1 <;> first
        | rfl
        | · show Val.num _ = Val.num 0
            congr 1
            simp
  · rcases v with q | s | _
    · exact absurd hFW (hw q)
    · constructor
      · intro hv
        simp only [process_fiber_content, hFW, hv]
        rw [if_neg (ne_of_gt (hfd _ _))]
        congr 1
        ext : 1 <;> first
          | rfl
          | · show Val.num _ = Val.num 100
              congr 1
              have := fiberDensity_pos (match x.Fiber_type with
                | some fv => fv
                | none => .str "Unknown")
              field_simp
              ring
      · intro hv
        simp only [process_fiber_content, hFW, hv]
        rw [if_neg (ne_of_gt (hmd _ _))]
        congr 1
        ext : 1 <;> first
          | rfl
          | · show Val.num _ = Val.num 0
              congr 1
              simp
    · constructor
      · intro hv
        simp only [process_fiber_content, hFW, hv]
        rw [if_neg (ne_of_gt (hfd _ _))]
        congr 1
        ext : 1 <;> first
          | rfl
          | · show Val.num _ = Val.num 100
              congr 1
              have := fiberDensity_pos (match x.Fiber_type with
                | some fv => fv
                | none => .str "Unknown")
              field_simp
              ring
      · intro hv
        simp only [process_fiber_content, hFW, hv]
        rw [if_neg (ne_of_gt (hmd _ _))]
        congr 1
        ext : 1 <;> first
          | rfl
          | · show Val.num _ = Val.num 0
              congr 1
              simp

/-- **C9** — for a record with no numeric direct weight-percentage field
and a numeric fiber volume percentage, the derived fiber content is
exactly 100 at volume 100 and exactly 0 at volume 0, for every
fiber/matrix density the lookup tables or their defaults can supply. -/
theorem C9_fiber_content_boundaries (calcDiameterF : ℚ → ℚ) (r : Record)
    (hw : ∀ q : ℚ, r.Fiber_content_weight ≠ some (.num q)) :
    (r.Fiber_content_volume = some (.num 100) →
      (create_selected_features calcDiameterF r).fiber_content = .num 100) ∧
    (r.Fiber_content_volume = some (.num 0) →
      (create_selected_features calcDiameterF r).fiber_content = .num 0) := by
  obtain ⟨ph, ci, cb, d, lv, h4, _⟩ := rules_one_to_four_eq calcDiameterF r
  have hw4 : ∀ q : ℚ, (rules_one_to_four calcDiameterF r).Fiber_content_weight
      ≠ some (.num q) := by
    rw [h4]; exact hw
  obtain ⟨hb100, hb0⟩ := process_fiber_content_boundary _ hw4
  constructor
  · intro hv
    have hv4 : (rules_one_to_four calcDiameterF r).Fiber_content_volume
        = some (.num 100) := by rw [h4]; exact hv
    unfold create_selected_features
    rw [hb100 hv4]
    dsimp only
    rw [rules_six_to_eight_fiber_content]
  · intro hv
    have hv4 : (rules_one_to_four calcDiameterF r).Fiber_content_volume
        = some (.num 0) := by rw [h4]; exact hv
    unfold create_selected_features
    rw [hb0 hv4]
    dsimp only
    rw [rules_six_to_eight_fiber_content]

/-- The record of the C9 witness: pure fiber by volume, glass fiber, no
weight percentage. -/
def recC9 : Record :=
  { Fiber_content_volume := some (.num 100),
    Fiber_type := some (.str "Glass") }

/-- **C9 (witness)** — the theorem applied to `recC9`. -/
theorem C9_fiber_content_witness :
    (create_selected_features (fun q => q) recC9).fiber_content = .num 100 :=
  (C9_fiber_content_boundaries (fun q => q) recC9
    (fun _ h => Option.noConfusion h)).1 rfl

/-! ## C2 — the post-derivation field-shape invariant -/

/-- A finite number or the missing marker. -/
def numOrNan (v : Val) : Prop := (∃ q : ℚ, v = .num q) ∨ v = .nan

/-- A binary flag or the missing marker. -/
def flagOrNan (v : Val) : Prop := v = .num 0 ∨ v = .num 1 ∨ v = .nan

lemma process_material_types_glass (x : Record) :
    (process_material_types x).Glass_or_Basalt = .num 0 ∨
    (process_material_types x).Glass_or_Basalt = .num 1 ∨
    (process_material_types x).Glass_or_Basalt = x.Glass_or_Basalt := by
  obtain ⟨gb, ve, hm, hgb, _⟩ := process_material_types_eq x
  rw [hm]
  exact hgb

lemma process_material_types_vinyl (x : Record) :
    (process_material_types x).Vinyl_ester_or_Epoxy = .num 0 ∨
    (process_material_types x).Vinyl_ester_or_Epoxy = .num 1 ∨
    (process_material_types x).Vinyl_ester_or_Epoxy = x.Vinyl_ester_or_Epoxy := by
  obtain ⟨gb, ve, hm, _, hve⟩ := process_material_types_eq x
  rw [hm]
  exact hve

lemma rules_seven_eight_glass (x : Record) :
    (process_other_features (process_surface_treatment x)).Glass_or_Basalt
      = x.Glass_or_Basalt := rfl

lemma rules_seven_eight_vinyl (x : Record) :
    (process_other_features (process_surface_treatment x)).Vinyl_ester_or_Epoxy
      = x.Vinyl_ester_or_Epoxy := rfl

lemma process_other_features_condition_time (x : Record) :
    (process_other_features x).condition_time = x.condition_time ∨
    ∃ q : ℚ, (process_other_features x).condition_time = .num q := by
  obtain ⟨ct, te, tr, ms, gt, ho, hct, _, _, _⟩ := process_other_features_eq x
  rw [ho]
  exact hct

lemma process_other_features_temperature (x : Record) :
    (process_other_features x).Temperature = x.Temperature ∨
    ∃ q : ℚ, (process_other_features x).Temperature = .num q := by
  obtain ⟨ct, te, tr, ms, gt, ho, _, hte, _, _⟩ := process_other_features_eq x
  rw [ho]
  exact hte

lemma process_other_features_retention (x : Record) :
    (process_other_features x).Tensile_strength_retention
      = x.Tensile_strength_retention ∨
    ∃ q : ℚ, (process_other_features x).Tensile_strength_retention = .num q := by
  obtain ⟨ct, te, tr, ms, gt, ho, _, _, htr, _⟩ := process_other_features_eq x
  rw [ho]
  exact htr

lemma process_other_features_max_strength (x : Record) :
    (process_other_features x).max_strength = x.max_strength ∨
    ∃ q : ℚ, (process_other_features x).max_strength = .num q := by
  obtain ⟨ct, te, tr, ms, gt, ho, _, _, _, hms⟩ := process_other_features_eq x
  rw [ho]
  exact hms

/-- The record of the C2 counterexample: the only populated raw column is
`surface_treatment = "Notreported"`. -/
def recC2 : Record := { surface_treatment := some (.str "Notreported") }

/-- **C2 (counterexample)** — the claim says no canonical field holds a
sentinel token after derivation.  On `recC2` the normalizer rewrites
`"Notreported"` to the sentinel `"Unknown"`, and the surface-treatment
rule (which only maps `"sand coated"`/`"Smooth"`) leaves it in place: the
derived `surface_treatment` cell is the string `"Unknown"` — neither a
finite number, nor a flag, nor the missing marker. -/
theorem C2_counterexample :
    (derive_features (fun q => q) recC2).surface_treatment
        = some (.str "Unknown") ∧
    Val.isNum (.str "Unknown") = false ∧ Val.notna (.str "Unknown") = true := by
  refine ⟨?_, rfl, rfl⟩
  with_unfolding_all rfl

/-- **C2 (amended)** — after feature derivation, every canonical column
the dataset assembler selects into the final model dataset *except*
`diameter` and `surface_treatment` (which are updated in place and may
retain raw strings or the `"Unknown"` sentinel, see the counterexample)
has its specified shape: the environment pH and the load
fraction are always numbers, the chloride and concrete flags are binary,
and the remaining canonical features are numbers or missing. -/
theorem C2_derived_field_shapes (calcDiameterF : ℚ → ℚ) (r : Record)
    (h : rawWf r) :
    (∃ q : ℚ, (derive_features calcDiameterF r).pH_of_condition_enviroment = .num q) ∧
    ((derive_features calcDiameterF r).Chloride_ion = .num 0 ∨
      (derive_features calcDiameterF r).Chloride_ion = .num 1) ∧
    ((derive_features calcDiameterF r).concrete = some (.num 0) ∨
      (derive_features calcDiameterF r).concrete = some (.num 1)) ∧
    (∃ q : ℚ, (derive_features calcDiameterF r).load_value = .num q) ∧
    numOrNan (derive_features calcDiameterF r).fiber_content ∧
    flagOrNan (derive_features calcDiameterF r).Glass_or_Basalt ∧
    flagOrNan (derive_features calcDiameterF r).Vinyl_ester_or_Epoxy ∧
    numOrNan (derive_features calcDiameterF r).condition_time ∧
    numOrNan (derive_features calcDiameterF r).Temperature ∧
    numOrNan (derive_features calcDiameterF r).Tensile_strength_retention ∧
    numOrNan (derive_features calcDiameterF r).max_strength := by
  obtain ⟨g1, g2, g3, g4, g5, g6, g7, g8, g9, g10⟩ := h
  have h0 : rawWf (parse_range_to_mean (change_smd_to_nan r)) := by
    refine ⟨?_, ?_, ?_, ?_, ?_, ?_, ?_, ?_, ?_, ?_⟩
    · show change_smd_cell r.pH_of_condition_enviroment = Val.nan
      rw [g1]
      rfl
    · show change_smd_cell r.Chloride_ion = Val.nan
      rw [g2]
      rfl
    · show change_smd_cell r.load_value = Val.nan
      rw [g3]
      rfl
    · show change_smd_cell r.fiber_content = Val.nan
      rw [g4]
      rfl
    · show change_smd_cell r.Glass_or_Basalt = Val.nan
      rw [g5]
      rfl
    · show change_smd_cell r.Vinyl_ester_or_Epoxy = Val.nan
      rw [g6]
      rfl
    · show change_smd_cell r.condition_time = Val.nan
      rw [g7]
      rfl
    · show change_smd_cell r.Temperature = Val.nan
      rw [g8]
      rfl
    · show change_smd_cell r.Tensile_strength_retention = Val.nan
      rw [g9]
      rfl
    · show change_smd_cell r.max_strength = Val.nan
      rw [g10]
      rfl
  obtain ⟨w1, w2, w3, w4, w5, w6, w7, w8, w9, w10⟩ := h0
  unfold derive_features create_selected_features
  obtain ⟨ph, ci, cb, d, lv, h4, _⟩ :=
    rules_one_to_four_eq calcDiameterF (parse_range_to_mean (change_smd_to_nan r))
  cases hf : process_fiber_content
      (rules_one_to_four calcDiameterF (parse_range_to_mean (change_smd_to_nan r))) with
  | error s =>
      dsimp only
      rw [process_fiber_content_error_eq hf, h4]
      refine ⟨⟨ph, rfl⟩, ?_, ?_, ⟨lv, rfl⟩, .inr w4, .inr (.inr w5), .inr (.inr w6),
        .inr w7, .inr w8, .inr w9, .inr w10⟩
      · cases ci
        · exact .inl rfl
        · exact .inr rfl
      · cases cb
        · exact .inl rfl
        · exact .inr rfl
  | ok t =>
      dsimp only
      obtain ⟨fc, ht, hfc⟩ := process_fiber_content_ok_eq hf
      have hXfib : (rules_one_to_four calcDiameterF
          (parse_range_to_mean (change_smd_to_nan r))).fiber_content = Val.nan := by
        rw [h4]
        exact w4
      have htph : t.pH_of_condition_enviroment = .num ph := by rw [ht, h4]
      have htci : t.Chloride_ion = .num (if ci then 1 else 0) := by rw [ht, h4]
      have htcb : t.concrete = some (.num (if cb then 1 else 0)) := by rw [ht, h4]
      have htlv : t.load_value = .num lv := by rw [ht, h4]
      have htfc : t.fiber_content = fc := by rw [ht]
      have htgb : t.Glass_or_Basalt = Val.nan := by
        rw [ht, h4]
        exact w5
      have htve : t.Vinyl_ester_or_Epoxy = Val.nan := by
        rw [ht, h4]
        exact w6
      have htct : t.condition_time = Val.nan := by
        rw [ht, h4]
        exact w7
      have htte : t.Temperature = Val.nan := by
        rw [ht, h4]
        exact w8
      have httr : t.Tensile_strength_retention = Val.nan := by
        rw [ht, h4]
        exact w9
      have htms : t.max_strength = Val.nan := by
        rw [ht, h4]
        exact w10
      refine ⟨?_, ?_, ?_, ?_, ?_, ?_, ?_, ?_, ?_, ?_, ?_⟩
      · rw [rules_six_to_eight_ph]
        exact ⟨ph, htph⟩
      · rw [rules_six_to_eight_chloride, htci]
        cases ci
        · exact .inl rfl
        · exact .inr rfl
      · rw [rules_six_to_eight_concrete, htcb]
        cases cb
        · exact .inl rfl
        · exact .inr rfl
      · rw [rules_six_to_eight_load_value]
        exact ⟨lv, htlv⟩
      · -- fiber content: either untouched (still missing) or a number
        rw [rules_six_to_eight_fiber_content, htfc]
        rcases hfc with hfc | ⟨q, hfc⟩
        · exact .inr (hfc.trans hXfib)
        · exact .inl ⟨q, hfc⟩
      · -- Glass_or_Basalt: written 0/1 or left at its prior (missing) value
        rw [rules_seven_eight_glass]
        rcases process_material_types_glass t with hg | hg | hg
        · exact .inl hg
        · exact .inr (.inl hg)
        · exact .inr (.inr (hg.trans htgb))
      · rw [rules_seven_eight_vinyl]
        rcases process_material_types_vinyl t with hv | hv | hv
        · exact .inl hv
        · exact .inr (.inl hv)
        · exact .inr (.inr (hv.trans htve))
      · rcases process_other_features_condition_time
            (process_surface_treatment (process_material_types t)) with hc | ⟨q, hc⟩
        · exact .inr (hc.trans htct)
        · exact .inl ⟨q, hc⟩
      · rcases process_other_features_temperature
            (process_surface_treatment (process_material_types t)) with hc | ⟨q, hc⟩
        · exact .inr (hc.trans htte)
        · exact .inl ⟨q, hc⟩
      · rcases process_other_features_retention
            (process_surface_treatment (process_material_types t)) with hc | ⟨q, hc⟩
        · exact .inr (hc.trans httr)
        · exact .inl ⟨q, hc⟩
      · rcases process_other_features_max_strength
            (process_surface_treatment (process_material_types t)) with hc | ⟨q, hc⟩
        · exact .inr (hc.trans htms)
        · exact .inl ⟨q, hc⟩

/-- The record of the C2 witness: a plain raw record with a numeric
temperature and retention. -/
def recC2w : Record :=
  { temperature := some (.num 25), retention1 := some (.num (17 / 20)) }

/-- **C2 (witness)** — the amended theorem applied to `recC2w`. -/
theorem C2_derived_field_shapes_witness :
    (∃ q : ℚ, (derive_features (fun q => q) recC2w).pH_of_condition_enviroment = .num q) ∧
    ((derive_features (fun q => q) recC2w).Chloride_ion = .num 0 ∨
      (derive_features (fun q => q) recC2w).Chloride_ion = .num 1) ∧
    ((derive_features (fun q => q) recC2w).concrete = some (.num 0) ∨
      (derive_features (fun q => q) recC2w).concrete = some (.num 1)) ∧
    (∃ q : ℚ, (derive_features (fun q => q) recC2w).load_value = .num q) ∧
    numOrNan (derive_features (fun q => q) recC2w).fiber_content ∧
    flagOrNan (derive_features (fun q => q) recC2w).Glass_or_Basalt ∧
    flagOrNan (derive_features (fun q => q) recC2w).Vinyl_ester_or_Epoxy ∧
    numOrNan (derive_features (fun q => q) recC2w).condition_time ∧
    numOrNan (derive_features (fun q => q) recC2w).Temperature ∧
    numOrNan (derive_features (fun q => q) recC2w).Tensile_strength_retention ∧
    numOrNan (derive_features (fun q => q) recC2w).max_strength :=
  C2_derived_field_shapes (fun q => q) recC2w
    ⟨rfl, rfl, rfl, rfl, rfl, rfl, rfl, rfl, rfl, rfl⟩

/-! ## Predictor — `predictor.py`

The fitted model inside the Trained Artifact is an opaque pickled object;
it is modelled by two abstract prediction functions (one per input shape
the code feeds it) that may raise.  `feature_info` mirrors the dictionary
bundled with the model.  A prediction input (`predict_single`'s
dict/one-row-frame argument) is a list of named cells. -/

/-- The opaque fitted model: `isPipeline` models
`hasattr(model, 'named_steps')` (`predictor.py` line 113); the two
functions model `model.predict` on a one-row DataFrame and on a 1×k
array respectively, `Except.error` being a raised exception. -/
structure PredModel where
  isPipeline : Bool
  predictFrame : List (String × Val) → Except String ℚ
  predictArray : List Val → Except String ℚ

/-- The `feature_info` dictionary: `feature_names` is present only for
pipeline-style artifacts; the numeric/categorical lists are read with
`.get(…, [])`. -/
structure FeatureInfo where
  feature_names : Option (List String)
  numeric_features : List String
  categorical_features : List String

/-- `FRPPredictor`'s state after `load_model`. -/
structure Predictor where
  model : Option PredModel
  feature_info : Option FeatureInfo

/-- `pd.isna`-aware `fillna(0)` on a cell. -/
def fillna0 (v : Val) : Val :=
  match v with
  | .nan => .num 0
  | v => v

/-- A column of a one-row frame has a numeric dtype iff its single cell
is a number or `NaN` (`select_dtypes(include=[np.number])`); string cells
make the column `object`-typed. -/
def numericDtype (v : Val) : Bool :=
  match v with
  | .str _ => false
  | _ => true

/-- `set(required) - set(input.columns)`, as the list of required names
absent from the input (the set difference the code prints). -/
def missingFeatures (required : List String) (input : List (String × Val)) : List String :=
  required.filter (fun c => (input.lookup c).isNone)

/-- What `standardize_prediction_features` hands back: a DataFrame for a
pipeline model, a numeric array for a preprocessed model. -/
inductive StdData where
  | frame (cols : List (String × Val))
  | array (xs : List Val)

/-- The observable outcome of `standardize_prediction_features`:
`missingReport` is the `None` return that first prints
"Missing required features: [...]" by name (`predictor.py` lines 122–125
and 151–153); `failed` covers the other `None` returns (no model, no
feature info, no numeric features, internal exception). -/
inductive StdResult where
  | data (d : StdData)
  | missingReport (names : List String)
  | failed

/-- `FRPPredictor.standardize_prediction_features`
(`predictor.py` lines 90–176) on a single dict/one-row-frame input. -/
def standardize_prediction_features (p : Predictor) (input : List (String × Val)) :
    StdResult :=
  match p.model with
  | none => .failed
  | some m =>
    if m.isPipeline then
      match p.feature_info with
      | some fi =>
        match fi.feature_names with
        | some names =>
            let missing := missingFeatures names input
            if missing ≠ [] then .missingReport missing
            else
              -- keep exactly the training columns, in training order
              .data (.frame (names.map (fun c => (c, (input.lookup c).getD .nan))))
        | none => .data (.frame input)   -- warning path: frame returned as-is
      | none => .data (.frame input)
    else
      match p.feature_info with
      | none => .failed
      | some fi =>
        let expected := fi.numeric_features ++ fi.categorical_features
        let missing := missingFeatures expected input
        if missing ≠ [] then .missingReport missing
        else if fi.numeric_features ≠ [] then
          .data (.array (fi.numeric_features.map
            (fun c => fillna0 ((input.lookup c).getD .nan))))
        else .failed

/-- `FRPPredictor._emergency_prediction_fallback`
(`predictor.py` lines 253–288) on a single-row input.  For one row,
every numeric column's mean equals its value and the sample standard
deviation is `NaN`, so each z-score entry is `NaN` (also for `NaN`
cells) and `fillna(0)` zeroes it: the model is applied to the zero
vector whose length is the number of numeric-dtype columns.  A missing
model (`None.predict`) or a raising model is caught and gives `None`. -/
def emergency_prediction_fallback (p : Predictor) (input : List (String × Val)) :
    Option ℚ :=
  match p.model with
  | none => none
  | some m =>
    let numericCols := input.filter (fun cv => numericDtype cv.2)
    if numericCols.isEmpty then none
    else
      match m.predictArray (List.replicate numericCols.length (.num 0)) with
      | .ok y => some y
      | .error _ => none

/-- `FRPPredictor.predict_single` (`predictor.py` lines 178–212): no
model gives `None`; a `None` from standardisation, or an exception from
`model.predict` or the `float` conversion, routes to the emergency
fallback (whose own `try/except` returns `None` on failure). -/
def predict_single (p : Predictor) (input : List (String × Val)) : Option ℚ :=
  match p.model with
  | none => none
  | some m =>
    match standardize_prediction_features p input with
    | .data (.frame cols) =>
        match m.predictFrame cols with
        | .ok y => some y
        | .error _ => emergency_prediction_fallback p input
    | .data (.array xs) =>
        match m.predictArray xs with
        | .ok y => some y
        | .error _ => emergency_prediction_fallback p input
    | .missingReport _ => emergency_prediction_fallback p input
    | .failed => emergency_prediction_fallback p input

/-- The standard (non-fallback) prediction path yields no result:
standardisation returned `None` (missing features or failure) or the
model raised on the standardised data. -/
def standard_path_fails (p : Predictor) (input : List (String × Val)) : Prop :=
  match p.model with
  | none => True
  | some m =>
    match standardize_prediction_features p input with
    | .data (.frame cols) => ∃ e, m.predictFrame cols = .error e
    | .data (.array xs) => ∃ e, m.predictArray xs = .error e
    | .missingReport _ => True
    | .failed => True

/-- **C10** — `predict_single` is total (it is a plain function into
`Option`, every exception path of the source being caught and routed to
the fallback or to `None`), and it returns `None` exactly when no model
is loaded or when both the standard path and the emergency fallback
fail. -/
theorem C10_predict_single_none_characterisation (p : Predictor)
    (input : List (String × Val)) :
    predict_single p input = none ↔
      (p.model = none ∨
        (standard_path_fails p input ∧ emergency_prediction_fallback p input = none)) := by
  unfold predict_single standard_path_fails
  rcases hm : p.model with _ | m
  · simp
  · simp only [hm, Option.some.injEq, reduceCtorEq, false_or]
    rcases hs : standardize_prediction_features p input with d | names | _
    · rcases d with cols | xs
      · rcases hp : m.predictFrame cols with y | e
        · simp [hp]
        · simp [hp, hm]
      · rcases hp : m.predictArray xs with y | e
        · simp [hp]
        · simp [hp, hm]
    · simp [hm]
    · simp [hm]

/-- The model of the C4 counterexample: a pipeline-style artifact
expecting the two features `"a"` and `"b"`, whose fitted model returns
one half on any array input. -/
def predC4 : Predictor :=
  { model := some
      { isPipeline := true
        predictFrame := fun _ => .ok 1
        predictArray := fun _ => .ok (1 / 2) },
    feature_info := some
      { feature_names := some ["a", "b"]
        numeric_features := []
        categorical_features := [] } }

/-- The input of the C4 counterexample: feature `"b"` is missing. -/
def inputC4 : List (String × Val) := [("a", .num 1)]

/-- **C4 (counterexample)** — the claim says an input missing a required
feature gets the missing names reported and *no numeric prediction*
unless fallback is explicitly requested.  The code has no request
mechanism: `predict_single` reports `"b"` missing and then *automatically*
runs the emergency fallback, returning the numeric prediction 1/2. -/
theorem C4_counterexample :
    standardize_prediction_features predC4 inputC4 = .missingReport ["b"] ∧
    predict_single predC4 inputC4 = some (1 / 2) := by
  constructor
  · with_unfolding_all rfl
  · with_unfolding_all rfl

/-- **C4 (amended)** — for a pipeline artifact with a recorded feature
list, an input missing required features has them reported by name (the
set difference, via the `missingReport` outcome) and the standard path
yields no prediction; but instead of withholding a result,
`predict_single` automatically falls through to the emergency fallback,
whose numeric result (if any) is returned. -/
theorem C4_missing_features_fall_back (p : Predictor) (m : PredModel)
    (fi : FeatureInfo) (names : List String) (input : List (String × Val))
    (hm : p.model = some m) (hpl : m.isPipeline = true)
    (hfi : p.feature_info = some fi) (hn : fi.feature_names = some names)
    (hmiss : missingFeatures names input ≠ []) :
    standardize_prediction_features p input
        = .missingReport (missingFeatures names input) ∧
    predict_single p input = emergency_prediction_fallback p input := by
  have hstd : standardize_prediction_features p input
      = .missingReport (missingFeatures names input) := by
    unfold standardize_prediction_features
    rw [hm]
    simp only [hpl, if_true, hfi, hn, if_pos hmiss]
  refine ⟨hstd, ?_⟩
  unfold predict_single
  rw [hm, hstd]

/-- **C4 (witness)** — the amended theorem applied to `predC4` and
`inputC4`. -/
theorem C4_missing_features_witness :
    standardize_prediction_features predC4 inputC4
        = .missingReport (missingFeatures ["a", "b"] inputC4) ∧
    predict_single predC4 inputC4 = emergency_prediction_fallback predC4 inputC4 :=
  C4_missing_features_fall_back predC4
    { isPipeline := true
      predictFrame := fun _ => .ok 1
      predictArray := fun _ => .ok (1 / 2) }
    { feature_names := some ["a", "b"]
      numeric_features := []
      categorical_features := [] }
    ["a", "b"] inputC4 rfl rfl rfl rfl (by decide)

/-! ## Prediction pipeline — `FRPPredictionPipeline.predict_from_raw_data`
(`predictor.py` lines 361–416) together with the dataset assembler
`create_model_dataset` (`preprocessor.py` lines 455–538) on a one-record
input. -/

/-- `create_model_dataset` on a single derived record.  The `Title`
column (taken from the index when absent) and the always-written pH
column are non-null, so phase (a) `dropna(how='all')` keeps the row.
With one row the `< 100` relaxation then keeps it iff the target
`Tensile_strength_retention` is non-null, and the subsequent `< 50`
re-filter (`dropna(subset=['Tensile_strength_retention'])`) is the same
test; the surviving row is column-selected and renamed, which does not
alter any cell. -/
def create_model_dataset_single (d : Record) : Option Record :=
  if d.Tensile_strength_retention.notna then some d else none

/-- The result dictionary of `predict_from_raw_data`. -/
structure PredResult where
  success : Bool
  prediction : Option ℚ
  error : Option String

/-- `predict_single` as invoked by `predict_from_raw_data`
(`predictor.py` line 392): the argument is `processed_df.iloc[0]`, a
pandas **Series**.  A Series has no `.columns` attribute, so inside
`standardize_prediction_features` the set difference raises
`AttributeError`, caught by its `try/except` → `None`; the emergency
fallback then calls `Series.select_dtypes`, which does not exist either,
so its `try/except` also returns `None`. -/
def emergency_fallback_on_series (p : Predictor) (_row : Record) : Option ℚ :=
  match p.model with
  | none => none
  | some _ => none

/-- `predict_single` on a Series input: no model short-circuits to
`None`; otherwise standardisation fails (see above) and the fallback is
invoked, which also fails. -/
def predict_single_on_series (p : Predictor) (row : Record) : Option ℚ :=
  match p.model with
  | none => none
  | some _ => emergency_fallback_on_series p row

/-- `FRPPredictionPipeline.predict_from_raw_data` on a single raw
record: the full training preprocessing chain (including the dataset
assembler's target-presence relaxation) runs first; an empty result is
reported as `Data preprocessing failed`, a `None` prediction as
`Prediction failed`. -/
def predict_from_raw_data (p : Predictor) (calcDiameterF : ℚ → ℚ) (r : Record) :
    PredResult :=
  match create_model_dataset_single (derive_features calcDiameterF r) with
  | none => { success := false, prediction := none, error := some "Data preprocessing failed" }
  | some row =>
    match predict_single_on_series p row with
    | none => { success := false, prediction := none, error := some "Prediction failed" }
    | some y => { success := true, prediction := some y, error := none }

/-- The record of the C5 failing input: a well-populated new specimen
record — fibre type, matrix, diameter, volume content, temperature,
exposure time — with no `retention1` value, which is exactly the field
one wants *predicted*. -/
def recC5 : Record :=
  { temperature := some (.num 60),
    time_field := some (.num 365),
    Fiber_type := some (.str "Glass"),
    Matrix_type := some (.str "Epoxy"),
    diameter := some (.num 12),
    Fiber_content_volume := some (.num 60) }

/-- **C5** — the claim (with the spec) says inference reapplies the
derivation and column selection *without* the training-only
row-retention/target-presence filtering, so a single record with the
target missing still yields a feature vector and a prediction.  The
code reuses the full training preprocessing: on `recC5` (with a loaded
model) the derived target is missing, the one-row dataset is filtered to
empty, and the pipeline returns `Data preprocessing failed` with no
prediction. -/
theorem C5_missing_target_yields_no_prediction :
    (derive_features (fun q => q) recC5).Tensile_strength_retention = .nan ∧
    predict_from_raw_data predC4 (fun q => q) recC5
      = { success := false, prediction := none,
          error := some "Data preprocessing failed" } := by
  constructor
  · with_unfolding_all rfl
  · with_unfolding_all rfl

/-! ## Partitioner — `train_validation_test_split` (`utils.py` lines
247–282) and `ModelTrainer.prepare_train_val_test_splits`
(`model_trainer.py` lines 91–118).

Both call sklearn's `train_test_split` twice with the same fixed seed:
first carving the test fraction out of the whole, then the validation
fraction out of the remainder with the adjusted ratio
`val_size / (1 - test_size)`.  sklearn draws a seeded permutation of the
rows and takes `ceil(test_size·n)` of them as the test subset, the rest
as the train subset (documented behaviour of
`sklearn.model_selection.train_test_split`, a third-party call); the
permutation is abstracted as a `shuffle` function. -/

/-- One sklearn `train_test_split` with a float `test_size`: permute,
take `ceil(test_size·n)` rows as the second (test) component, the rest
as the first. -/
def train_test_split {α : Type} (shuffle : List α → List α) (test_size : ℚ)
    (xs : List α) : List α × List α :=
  let s := shuffle xs
  let nTest := (⌈test_size * (s.length : ℚ)⌉).toNat
  (s.drop nTest, s.take nTest)

/-- The two-stage 7:2:1 split (`utils.py` lines 264–274): test from the
whole, then validation from the remainder with the adjusted ratio;
returns `(train, validation, test)`. -/
def train_validation_test_split {α : Type} (sh1 sh2 : List α → List α)
    (xs : List α) (test_size val_size : ℚ) : List α × List α × List α :=
  let p1 := train_test_split sh1 test_size xs
  let adjusted := val_size / (1 - test_size)
  let p2 := train_test_split sh2 adjusted p1.1
  (p2.1, p2.2, p1.2)

lemma round_le_ceil (x : ℚ) : round x ≤ ⌈x⌉ := by
  rw [round_eq]
  have h1 : ((⌊x + 1 / 2⌋ : ℤ) : ℚ) ≤ x + 1 / 2 := Int.floor_le _
  have h2 : x ≤ ((⌈x⌉ : ℤ) : ℚ) := Int.le_ceil x
  have : ((⌊x + 1 / 2⌋ : ℤ) : ℚ) < ((⌈x⌉ : ℤ) : ℚ) + 1 := by linarith
  exact_mod_cast Int.lt_add_one_iff.mp (by exact_mod_cast this)

lemma ceil_le_round_add_one (x : ℚ) : ⌈x⌉ ≤ round x + 1 := by
  rw [round_eq]
  have h1 : ⌈x⌉ ≤ ⌊x⌋ + 1 := Int.ceil_le_floor_add_one x
  have h2 : ⌊x⌋ ≤ ⌊x + 1 / 2⌋ := Int.floor_mono (by linarith)
  omega

/-- The per-stage bookkeeping of one `train_test_split` call: the two
components concatenate (as a permutation) to the input, and their
lengths are `n - ceil(q·n)` and `ceil(q·n)`. -/
lemma train_test_split_spec {α : Type} (shuffle : List α → List α)
    (hsh : ∀ l, List.Perm (shuffle l) l) (q : ℚ) (hq0 : 0 ≤ q) (hq1 : q ≤ 1)
    (xs : List α) :
    List.Perm ((train_test_split shuffle q xs).1 ++ (train_test_split shuffle q xs).2) xs ∧
    (train_test_split shuffle q xs).2.length = (⌈q * (xs.length : ℚ)⌉).toNat ∧
    (train_test_split shuffle q xs).1.length
      = xs.length - (⌈q * (xs.length : ℚ)⌉).toNat := by
  have hlen : (shuffle xs).length = xs.length := (hsh xs).length_eq
  have hceil : ⌈q * (xs.length : ℚ)⌉ ≤ (xs.length : ℤ) := by
    rw [Int.ceil_le]
    push_cast
    have hx : (0 : ℚ) ≤ (xs.length : ℚ) := Nat.cast_nonneg _
    nlinarith
  have htoNat : (⌈q * (xs.length : ℚ)⌉).toNat ≤ xs.length := by
    omega
  simp only [train_test_split, hlen]
  refine ⟨?_, ?_, ?_⟩
  · have h1 : List.Perm
        ((shuffle xs).drop (⌈q * (xs.length : ℚ)⌉).toNat ++
          (shuffle xs).take (⌈q * (xs.length : ℚ)⌉).toNat)
        ((shuffle xs).take (⌈q * (xs.length : ℚ)⌉).toNat ++
          (shuffle xs).drop (⌈q * (xs.length : ℚ)⌉).toNat) := List.perm_append_comm
    have h2 := List.take_append_drop (⌈q * (xs.length : ℚ)⌉).toNat (shuffle xs)
    exact (h2 ▸ h1).trans (hsh xs)
  · rw [List.length_take, hlen]
    omega
  · rw [List.length_drop, hlen]

/-- Pure counting facts for the two-stage split: with `T = ⌈N/10⌉` test
rows and `V = ⌈(2/9)·(N−T)⌉` validation rows out of `N ≥ 3`, all three
subsets are nonempty, `V` fits in the remainder, and `T` (resp. `V`) is
within ±1 of `round(N/10)` (resp. `round(N/5)`). -/
lemma split_count_bounds (N : ℕ) (T V R10 R5 : ℤ) (hN : 3 ≤ N)
    (hT : T = ⌈(1 / 10 : ℚ) * (N : ℚ)⌉)
    (hV : V = ⌈(2 / 9 : ℚ) * ((N : ℚ) - (T : ℚ))⌉)
    (hR10 : R10 = round ((1 / 10 : ℚ) * (N : ℚ)))
    (hR5 : R5 = round ((1 / 5 : ℚ) * (N : ℚ))) :
    0 ≤ T ∧ T ≤ (N : ℤ) ∧ 0 < T ∧ 0 ≤ V ∧ V ≤ (N : ℤ) - T ∧ 0 < V ∧
    1 ≤ (N : ℤ) - T - V ∧ |T - R10| ≤ 1 ∧ |V - R5| ≤ 1 := by
  have hNq : (3 : ℚ) ≤ (N : ℚ) := by exact_mod_cast hN
  have hT0 : 0 ≤ T := by
    rw [hT]
    exact Int.ceil_nonneg (by positivity)
  have hTl : (1 / 10 : ℚ) * (N : ℚ) ≤ (T : ℚ) := by
    rw [hT]
    exact Int.le_ceil _
  have hTu : (T : ℚ) < (1 / 10 : ℚ) * (N : ℚ) + 1 := by
    rw [hT]
    exact Int.ceil_lt_add_one _
  have hTN : T ≤ (N : ℤ) := by
    rw [hT, Int.ceil_le]
    push_cast
    nlinarith
  have hTNq : (T : ℚ) ≤ (N : ℚ) := by exact_mod_cast hTN
  have hTpos : 0 < T := by
    rw [hT]
    exact Int.ceil_pos.mpr (by positivity)
  have hV0 : 0 ≤ V := by
    rw [hV]
    exact Int.ceil_nonneg (by nlinarith)
  have hVl : (2 / 9 : ℚ) * ((N : ℚ) - (T : ℚ)) ≤ (V : ℚ) := by
    rw [hV]
    exact Int.le_ceil _
  have hVu : (V : ℚ) < (2 / 9 : ℚ) * ((N : ℚ) - (T : ℚ)) + 1 := by
    rw [hV]
    exact Int.ceil_lt_add_one _
  have hVN : V ≤ (N : ℤ) - T := by
    rw [hV, Int.ceil_le]
    push_cast
    nlinarith
  have hVpos : 0 < V := by
    rw [hV]
    apply Int.ceil_pos.mpr
    nlinarith
  have hTrPos : 1 ≤ (N : ℤ) - T - V := by
    have hq : (0 : ℚ) < (N : ℚ) - (T : ℚ) - (V : ℚ) := by nlinarith
    have : (0 : ℤ) < (N : ℤ) - T - V := by exact_mod_cast hq
    omega
  have hTb : |T - R10| ≤ 1 := by
    have h1 := round_le_ceil ((1 / 10 : ℚ) * (N : ℚ))
    have h2 := ceil_le_round_add_one ((1 / 10 : ℚ) * (N : ℚ))
    rw [abs_le]
    omega
  have hVb : |V - R5| ≤ 1 := by
    have hRu : ((R5 : ℤ) : ℚ) ≤ (1 / 5 : ℚ) * (N : ℚ) + 1 / 2 := by
      rw [hR5, round_eq]
      exact_mod_cast Int.floor_le _
    have hVle : V ≤ R5 + 1 := by
      have hmono : V ≤ ⌈(1 / 5 : ℚ) * (N : ℚ)⌉ := by
        rw [hV]
        exact Int.ceil_mono (by nlinarith)
      have := ceil_le_round_add_one ((1 / 5 : ℚ) * (N : ℚ))
      omega
    have hVge : R5 ≤ V := by
      have hlt : ((R5 : ℤ) : ℚ) - 1 < ((V : ℤ) : ℚ) := by nlinarith
      have : R5 - 1 < V := by exact_mod_cast hlt
      omega
    rw [abs_le]
    omega
  exact ⟨hT0, hTN, hTpos, hV0, hVN, hVpos, hTrPos, hTb, hVb⟩

/-- **C6** — the two-stage partitioner on any dataset large enough to
populate all three subsets: train, validation and test are pairwise
disjoint, exhaust the dataset, their sizes sum to N exactly, and the
test (resp. validation) size is within ±1 of round(0.10·N) (resp.
round(0.20·N)); all three subsets are nonempty.  The seeded permutations
of the two sklearn calls are abstracted as arbitrary permutation
functions. -/
theorem C6_two_stage_split {α : Type} (sh1 sh2 : List α → List α)
    (hp1 : ∀ l, List.Perm (sh1 l) l) (hp2 : ∀ l, List.Perm (sh2 l) l)
    (xs : List α) (hnd : xs.Nodup) (hN : 3 ≤ xs.length)
    (tr va te : List α)
    (h : train_validation_test_split sh1 sh2 xs (1 / 10) (1 / 5) = (tr, va, te)) :
    tr.length + va.length + te.length = xs.length ∧
    (∀ a, a ∈ xs ↔ a ∈ tr ∨ a ∈ va ∨ a ∈ te) ∧
    tr.Disjoint va ∧ tr.Disjoint te ∧ va.Disjoint te ∧
    0 < tr.length ∧ 0 < va.length ∧ 0 < te.length ∧
    |(te.length : ℤ) - round ((1 / 10 : ℚ) * xs.length)| ≤ 1 ∧
    |(va.length : ℤ) - round ((1 / 5 : ℚ) * xs.length)| ≤ 1 := by
  have e1 := (congrArg (fun p => p.1) h).symm
  have e2 := (congrArg (fun p => p.2.1) h).symm
  have e3 := (congrArg (fun p => p.2.2) h).symm
  simp only at e1 e2 e3
  subst e1
  subst e2
  subst e3
  simp only [train_validation_test_split]
  obtain ⟨hperm1, hlen_te, hlen_tmp⟩ :=
    train_test_split_spec sh1 hp1 (1 / 10) (by norm_num) (by norm_num) xs
  obtain ⟨hperm2, hlen_va, hlen_tr⟩ :=
    train_test_split_spec sh2 hp2 ((1 / 5) / (1 - 1 / 10)) (by norm_num) (by norm_num)
      (train_test_split sh1 (1 / 10) xs).1
  have hb : List.Perm
      (((train_test_split sh2 ((1 / 5) / (1 - 1 / 10)) (train_test_split sh1 (1 / 10) xs).1).1 ++
        (train_test_split sh2 ((1 / 5) / (1 - 1 / 10)) (train_test_split sh1 (1 / 10) xs).1).2) ++
        (train_test_split sh1 (1 / 10) xs).2) xs :=
    (hperm2.append_right _).trans hperm1
  -- the integer counting facts
  obtain ⟨hT0, hTN, hTpos, hV0, hVN, hVpos, hTrPos, hTb, hVb⟩ :=
    split_count_bounds xs.length ⌈(1 / 10 : ℚ) * (xs.length : ℚ)⌉
      ⌈(2 / 9 : ℚ) * ((xs.length : ℚ) - (⌈(1 / 10 : ℚ) * (xs.length : ℚ)⌉ : ℚ))⌉
      (round ((1 / 10 : ℚ) * (xs.length : ℚ))) (round ((1 / 5 : ℚ) * (xs.length : ℚ)))
      hN rfl rfl rfl rfl
  have htT : (((⌈(1 / 10 : ℚ) * (xs.length : ℚ)⌉).toNat : ℕ) : ℤ)
      = ⌈(1 / 10 : ℚ) * (xs.length : ℚ)⌉ := Int.toNat_of_nonneg hT0
  have htN : (⌈(1 / 10 : ℚ) * (xs.length : ℚ)⌉).toNat ≤ xs.length := by omega
  have hadj : ((1 / 5 : ℚ)) / (1 - 1 / 10) = 2 / 9 := by norm_num
  have hcast : (((xs.length - (⌈(1 / 10 : ℚ) * (xs.length : ℚ)⌉).toNat : ℕ)) : ℚ)
      = (xs.length : ℚ) - (⌈(1 / 10 : ℚ) * (xs.length : ℚ)⌉ : ℚ) := by
    have h' : (((xs.length - (⌈(1 / 10 : ℚ) * (xs.length : ℚ)⌉).toNat : ℕ)) : ℤ)
        = (xs.length : ℤ) - ⌈(1 / 10 : ℚ) * (xs.length : ℚ)⌉ := by
      push_cast
      omega
    exact_mod_cast h'
  have hlen_va' : (train_test_split sh2 ((1 / 5) / (1 - 1 / 10))
        (train_test_split sh1 (1 / 10) xs).1).2.length
      = (⌈(2 / 9 : ℚ) * ((xs.length : ℚ)
          - (⌈(1 / 10 : ℚ) * (xs.length : ℚ)⌉ : ℚ))⌉).toNat := by
    rw [hlen_va, hlen_tmp, hadj, hcast]
  have hlen_tr' : (train_test_split sh2 ((1 / 5) / (1 - 1 / 10))
        (train_test_split sh1 (1 / 10) xs).1).1.length
      = (xs.length - (⌈(1 / 10 : ℚ) * (xs.length : ℚ)⌉).toNat)
        - (⌈(2 / 9 : ℚ) * ((xs.length : ℚ)
            - (⌈(1 / 10 : ℚ) * (xs.length : ℚ)⌉ : ℚ))⌉).toNat := by
    rw [hlen_tr, hlen_tmp, hadj, hcast]
  have hvT : (((⌈(2 / 9 : ℚ) * ((xs.length : ℚ)
      - (⌈(1 / 10 : ℚ) * (xs.length : ℚ)⌉ : ℚ))⌉).toNat : ℕ) : ℤ)
      = ⌈(2 / 9 : ℚ) * ((xs.length : ℚ)
          - (⌈(1 / 10 : ℚ) * (xs.length : ℚ)⌉ : ℚ))⌉ := Int.toNat_of_nonneg hV0
  -- assemble
  have hsum := hb.length_eq
  simp only [List.length_append] at hsum
  have hndall := (hb.nodup_iff).mpr hnd
  rw [List.nodup_append] at hndall
  obtain ⟨hnd12, hndte, hdisj12te⟩ := hndall
  rw [List.nodup_append] at hnd12
  obtain ⟨hndtr, hndva, hdisjtrva⟩ := hnd12
  rw [List.disjoint_append_left] at hdisj12te
  refine ⟨by omega, ?_, hdisjtrva, hdisj12te.1, hdisj12te.2, ?_, ?_, ?_, ?_, ?_⟩
  · intro a
    rw [← hb.mem_iff]
    simp [List.mem_append, or_assoc]
  · rw [hlen_tr']
    omega
  · rw [hlen_va']
    omega
  · rw [hlen_te]
    omega
  · rw [hlen_te]
    rw [abs_le] at hTb ⊢
    omega
  · rw [hlen_va']
    rw [abs_le] at hVb ⊢
    omega

/-- **C6 (witness)** — the partitioner theorem applied to the 20-row
dataset `0,…,19` with the identity permutations (2 test rows, 4
validation rows, 14 training rows). -/
theorem C6_two_stage_split_witness :
    (train_validation_test_split (fun l => l) (fun l => l)
        (List.range 20) (1 / 10) (1 / 5)).1.length +
      (train_validation_test_split (fun l => l) (fun l => l)
        (List.range 20) (1 / 10) (1 / 5)).2.1.length +
      (train_validation_test_split (fun l => l) (fun l => l)
        (List.range 20) (1 / 10) (1 / 5)).2.2.length = (List.range 20).length ∧
    (∀ a, a ∈ List.range 20 ↔
      a ∈ (train_validation_test_split (fun l => l) (fun l => l)
            (List.range 20) (1 / 10) (1 / 5)).1 ∨
      a ∈ (train_validation_test_split (fun l => l) (fun l => l)
            (List.range 20) (1 / 10) (1 / 5)).2.1 ∨
      a ∈ (train_validation_test_split (fun l => l) (fun l => l)
            (List.range 20) (1 / 10) (1 / 5)).2.2) ∧
    (train_validation_test_split (fun l => l) (fun l => l)
        (List.range 20) (1 / 10) (1 / 5)).1.Disjoint
      (train_validation_test_split (fun l => l) (fun l => l)
        (List.range 20) (1 / 10) (1 / 5)).2.1 ∧
    (train_validation_test_split (fun l => l) (fun l => l)
        (List.range 20) (1 / 10) (1 / 5)).1.Disjoint
      (train_validation_test_split (fun l => l) (fun l => l)
        (List.range 20) (1 / 10) (1 / 5)).2.2 ∧
    (train_validation_test_split (fun l => l) (fun l => l)
        (List.range 20) (1 / 10) (1 / 5)).2.1.Disjoint
      (train_validation_test_split (fun l => l) (fun l => l)
        (List.range 20) (1 / 10) (1 / 5)).2.2 ∧
    0 < (train_validation_test_split (fun l => l) (fun l => l)
        (List.range 20) (1 / 10) (1 / 5)).1.length ∧
    0 < (train_validation_test_split (fun l => l) (fun l => l)
        (List.range 20) (1 / 10) (1 / 5)).2.1.length ∧
    0 < (train_validation_test_split (fun l => l) (fun l => l)
        (List.range 20) (1 / 10) (1 / 5)).2.2.length ∧
    |((train_validation_test_split (fun l => l) (fun l => l)
        (List.range 20) (1 / 10) (1 / 5)).2.2.length : ℤ)
      - round ((1 / 10 : ℚ) * (List.range 20).length)| ≤ 1 ∧
    |((train_validation_test_split (fun l => l) (fun l => l)
        (List.range 20) (1 / 10) (1 / 5)).2.1.length : ℤ)
      - round ((1 / 5 : ℚ) * (List.range 20).length)| ≤ 1 :=
  C6_two_stage_split (fun l => l) (fun l => l)
    (fun l => List.Perm.refl l) (fun l => List.Perm.refl l)
    (List.range 20) (List.nodup_range 20) (by simp)
    _ _ _ rfl
